import Mathlib

/-!
Shallow embedding of the bootstrap-safe interception layer of
`src/crates/vrift-shim/src/c/variadic_shim.c` (velo-sh/velo-rift).

The C bridges under scrutiny are compiled in the Apple arm64 configuration
(the `#if defined(__APPLE__)` branch), so the platform constants below are
the Apple arm64 values from the source; the Linux x86-64 kernel-return
convention of `raw_syscall` is embedded separately where a claim speaks
about both conventions.

Pointers and machine words are modelled as `Int` (the value carried in the
corresponding register); the `mode_t` narrowing cast that the variadic
extraction performs (`(mode_t)va_arg(args, int)`, `mode_t` being a 16-bit
unsigned type on the Apple target) is kept explicit.  A dispatcher entry is
embedded as a function from the `INITIALIZING` cell value and its C
arguments to the `Route` it takes: either a raw kernel trap with a syscall
number and four word arguments, or a call of one resolver implementation
entry point; a small interpreter (`runRoute`) gives routes their result
semantics relative to an abstract kernel and resolver.
-/

namespace VriftShim

/-! ### Platform constants (Apple arm64 branch of the source) -/

def SYS_OPEN : Int := 5

def SYS_OPENAT : Int := 463

def SYS_STAT64 : Int := 338

def SYS_LSTAT64 : Int := 340

def SYS_ACCESS : Int := 33

def SYS_READLINK : Int := 58

def SYS_FSTAT64 : Int := 339

def SYS_FSTATAT64 : Int := 466

def SYS_RENAME : Int := 128

def SYS_RENAMEAT : Int := 444

def SYS_FCNTL : Int := 92

/-- `O_CREAT` on the Apple target (0x0200). -/
def O_CREAT : Int := 512

/-- `O_WRONLY` on the Apple target (0x0001). -/
def O_WRONLY : Int := 1

/-- `O_TRUNC` on the Apple target (0x0400). -/
def O_TRUNC : Int := 1024

/-! ### Bootstrap state cell

`volatile char INITIALIZING = 2;` — 2: Early-Init (hazardous),
1: Rust-Init (safe TLS), 0: Ready. -/

def EARLY : Int := 2

def RUNTIME_SAFE : Int := 1

def READY : Int := 0

/-- Readiness order of the three cell values: `READY` (cell 0) is the most
ready, `RUNTIME_SAFE` (cell 1) in between, `EARLY` (cell 2, and any other
cell value) the least. -/
def readiness (c : Int) : Nat :=
  if c = 0 then 2 else if c = 1 then 1 else 0

/-! ### Errno bridge

`void set_vfs_errno(int e) { errno = e; }`
`int get_vfs_errno() { return errno; }` -/

/-- The calling thread's errno cell. -/
structure ErrnoCell where
  val : Int
deriving DecidableEq

def set_vfs_errno (_c : ErrnoCell) (e : Int) : ErrnoCell := ErrnoCell.mk e

def get_vfs_errno (c : ErrnoCell) : Int := c.val

/-! ### Raw syscall invoker

Two kernel response conventions.  Apple arm64: the trap leaves a result in
x0 and signals failure through the carry flag (`cset %1, cs`); on failure
`errno = (int)x0; return -1`.  Linux (x86-64 and arm64 alike in the
source): a return value in `[-4095, -1]` is `-errno`
(`if (ret < 0 && ret >= -4095) { errno = -ret; return -1; }`). -/

/-- The kernel's reply under the Apple arm64 convention: the carry flag
after the trap, and the value left in the result register x0. -/
structure KernelReply where
  carry : Bool
  x0 : Int
deriving DecidableEq

/-- Apple arm64 `raw_syscall` result normalization, as a function of the
kernel reply and the incoming errno cell value; yields (return value,
outgoing errno cell value). -/
def raw_syscall_apple (k : KernelReply) (errnoIn : Int) : Int × Int :=
  if k.carry then (-1, k.x0) else (k.x0, errnoIn)

/-- Linux `raw_syscall` result normalization (`if (ret < 0 && ret >= -4095)`),
as a function of the kernel return value and the incoming errno cell value. -/
def raw_syscall_linux (ret errnoIn : Int) : Int × Int :=
  if ret < 0 ∧ -4095 ≤ ret then (-1, -ret) else (ret, errnoIn)

/-! ### Resolver implementation entry points and routes -/

/-- One call of a resolver implementation entry point (the `extern`ally
declared Rust side), together with the argument values passed to it. -/
inductive ResolverCall where
  | velo_open_impl (path flags mode : Int)
  | velo_openat_impl (dirfd path flags mode : Int)
  | velo_stat_impl (path buf : Int)
  | velo_lstat_impl (path buf : Int)
  | velo_access_impl (path mode : Int)
  | velo_readlink_impl (path buf bufsiz : Int)
  | velo_fstat_impl (fd buf : Int)
  | velo_fstatat_impl (dirfd path buf flags : Int)
  | velo_rename_impl (oldp newp : Int)
  | velo_renameat_impl (oldfd oldp newfd newp : Int)
  | creat_shim (path mode : Int)
  | getattrlist_shim (path attrlist attrbuf attrbufsize options : Int)
  | setattrlist_shim (path attrlist attrbuf attrbufsize options : Int)
  | velo_fcntl_impl (fd cmd arg : Int)
deriving DecidableEq

/-- The route a dispatcher entry takes on one invocation: a raw kernel trap
`raw_syscall(number, a1, a2, a3, a4)`, or a resolver implementation call. -/
inductive Route where
  | raw (number a1 a2 a3 a4 : Int)
  | resolver (call : ResolverCall)
deriving DecidableEq

/-- Whether a route goes through the raw syscall invoker. -/
def Route.isRawCall : Route → Bool
  | Route.raw _ _ _ _ _ => true
  | Route.resolver _ => false

/-- Abstract environment a route runs in: the kernel's reply to a trap
(by number and arguments, Apple arm64 convention), and the resolver's
behaviour (result and outgoing errno cell value, since the resolver is
itself responsible for errno on failure). -/
structure World where
  kernel : Int → Int → Int → Int → Int → KernelReply
  resolver : ResolverCall → Int → Int × Int

/-- Result semantics of a route: (return value, outgoing errno cell value).
A raw route is normalized by `raw_syscall`; a resolver route's result is
returned unchanged. -/
def runRoute (w : World) (errnoIn : Int) : Route → Int × Int
  | Route.raw n a1 a2 a3 a4 => raw_syscall_apple (w.kernel n a1 a2 a3 a4) errnoIn
  | Route.resolver c => w.resolver c errnoIn

/-! ### Shim dispatcher entries

Each entry is a function of the `INITIALIZING` cell value `st` and its C
arguments.  The variadic prologue of `c_open_bridge` / `c_openat_bridge`
(`mode_t mode = 0; if (flags & O_CREAT) mode = (mode_t)va_arg(args, int);`)
is `open_mode_extraction`. -/

/-- C cast of an `int` to `mode_t` (16-bit unsigned on the Apple target). -/
def mode_t_cast (v : Int) : Int := v % 65536

/-- The variadic mode prologue shared by `c_open_bridge` and
`c_openat_bridge`: the extracted `mode_t` when `flags & O_CREAT` is
non-zero, else 0. -/
def open_mode_extraction (flags vararg : Int) : Int :=
  if Int.land flags O_CREAT ≠ 0 then mode_t_cast vararg else 0

def c_open_bridge (st path flags vararg : Int) : Route :=
  if st ≠ 0 then
    Route.raw SYS_OPEN path flags (open_mode_extraction flags vararg) 0
  else
    Route.resolver (ResolverCall.velo_open_impl path flags
      (open_mode_extraction flags vararg))

def c_openat_bridge (st dirfd path flags vararg : Int) : Route :=
  if st ≠ 0 then
    Route.raw SYS_OPENAT dirfd path flags (open_mode_extraction flags vararg)
  else
    Route.resolver (ResolverCall.velo_openat_impl dirfd path flags
      (open_mode_extraction flags vararg))

def c_stat_bridge (st path buf : Int) : Route :=
  if st ≠ 0 then Route.raw SYS_STAT64 path buf 0 0
  else Route.resolver (ResolverCall.velo_stat_impl path buf)

def c_lstat_bridge (st path buf : Int) : Route :=
  if st ≠ 0 then Route.raw SYS_LSTAT64 path buf 0 0
  else Route.resolver (ResolverCall.velo_lstat_impl path buf)

def c_access_bridge (st path mode : Int) : Route :=
  if st ≠ 0 then Route.raw SYS_ACCESS path mode 0 0
  else Route.resolver (ResolverCall.velo_access_impl path mode)

def c_readlink_bridge (st path buf bufsiz : Int) : Route :=
  if st ≠ 0 then Route.raw SYS_READLINK path buf bufsiz 0
  else Route.resolver (ResolverCall.velo_readlink_impl path buf bufsiz)

def c_fstat_bridge (st fd buf : Int) : Route :=
  if st ≠ 0 then Route.raw SYS_FSTAT64 fd buf 0 0
  else Route.resolver (ResolverCall.velo_fstat_impl fd buf)

def c_fstatat_bridge (st dirfd path buf flags : Int) : Route :=
  if st ≠ 0 then Route.raw SYS_FSTATAT64 dirfd path buf flags
  else Route.resolver (ResolverCall.velo_fstatat_impl dirfd path buf flags)

def c_rename_bridge (st oldp newp : Int) : Route :=
  if st ≠ 0 then Route.raw SYS_RENAME oldp newp 0 0
  else Route.resolver (ResolverCall.velo_rename_impl oldp newp)

def c_renameat_bridge (st oldfd oldp newfd newp : Int) : Route :=
  if st ≠ 0 then Route.raw SYS_RENAMEAT oldfd oldp newfd newp
  else Route.resolver (ResolverCall.velo_renameat_impl oldfd oldp newfd newp)

def c_creat_bridge (st path mode : Int) : Route :=
  if st ≠ 0 then
    Route.raw SYS_OPEN path (Int.lor (Int.lor O_CREAT O_WRONLY) O_TRUNC) mode 0
  else Route.resolver (ResolverCall.creat_shim path mode)

def c_getattrlist_bridge (_st path attrlist attrbuf attrbufsize options : Int) :
    Route :=
  Route.resolver
    (ResolverCall.getattrlist_shim path attrlist attrbuf attrbufsize options)

def c_setattrlist_bridge (_st path attrlist attrbuf attrbufsize options : Int) :
    Route :=
  Route.resolver
    (ResolverCall.setattrlist_shim path attrlist attrbuf attrbufsize options)

def fcntl_shim_c_impl (st fd cmd arg : Int) : Route :=
  if st ≠ 0 then Route.raw SYS_FCNTL fd cmd arg 0
  else Route.resolver (ResolverCall.velo_fcntl_impl fd cmd arg)

/-! ### Load-time bootstrap trace

The two `__attribute__((constructor))` hooks run once each, in priority
order (101 before 65535), single-threaded.  The observable per-process
state they act on is the SIGPIPE disposition and the `INITIALIZING` cell. -/

/-- Process state the bootstrap hooks act on. -/
structure ProcState where
  sigpipeIgnored : Bool
  cell : Int
deriving DecidableEq

/-- Link-time initial state: SIGPIPE at default disposition,
`INITIALIZING = 2`. -/
def initState : ProcState := ProcState.mk false 2

/-- One primitive action a bootstrap hook performs. -/
inductive BootAction where
  | ignoreSigpipe
  | writeCell (v : Int)
deriving DecidableEq

def applyAction (s : ProcState) : BootAction → ProcState
  | BootAction.ignoreSigpipe => ProcState.mk true s.cell
  | BootAction.writeCell v => ProcState.mk s.sigpipeIgnored v

/-- Body of `__attribute__((constructor(101))) vfs_init_constructor`:
`signal(SIGPIPE, SIG_IGN); INITIALIZING = 1;` in that order. -/
def vfs_init_constructor : List BootAction :=
  [BootAction.ignoreSigpipe, BootAction.writeCell 1]

/-- Body of `__attribute__((constructor(65535))) vfs_late_init_constructor`:
`INITIALIZING = 0;`. -/
def vfs_late_init_constructor : List BootAction :=
  [BootAction.writeCell 0]

/-- The full load-time action sequence: the first hook's actions, then the
second hook's, each hook running exactly once. -/
def bootActions : List BootAction :=
  vfs_init_constructor ++ vfs_late_init_constructor

/-- All process states reachable along the bootstrap, from the link-time
initial state through every action. -/
def statesAlong : List ProcState := bootActions.scanl applyAction initState

/-- The cell value a `BootAction.writeCell` action stores, if any. -/
def writeValue : BootAction → Option Int
  | BootAction.ignoreSigpipe => none
  | BootAction.writeCell v => some v

end VriftShim

namespace VriftShim

/-! ### Additional observation helpers -/

/-- The mode value a route delivers to its callee, for the open/openat raw
syscalls (third argument of `SYS_OPEN`, fourth of `SYS_OPENAT`) and the
open/openat resolver entry points. -/
def Route.openDeliveredMode : Route → Option Int
  | Route.raw n _ _ a3 a4 => if n = SYS_OPENAT then some a4 else some a3
  | Route.resolver (ResolverCall.velo_open_impl _ _ m) => some m
  | Route.resolver (ResolverCall.velo_openat_impl _ _ _ m) => some m
  | Route.resolver _ => none

/-! ### Theorems for the claims -/

/-- Claim C1: each of the twelve dispatcher entries (open, openat, stat,
lstat, access, readlink, fstat, fstatat, rename, renameat, creat, fcntl)
routes to the raw syscall invoker with its platform syscall number and the
extracted arguments when the bootstrap state is below `READY`, and to the
corresponding resolver implementation entry point with the same extracted
arguments when the state is `READY`; a raw route's result obeys the
-1-with-error-cell / success-value contract, and a resolver route's result
is returned unchanged. -/
theorem claim1_dispatcher_state_routing
    (st path flags vararg dirfd buf bufsiz fd oldp newp oldfd newfd mode cmd arg : Int) :
    (st ≠ READY →
      c_open_bridge st path flags vararg =
        Route.raw SYS_OPEN path flags (open_mode_extraction flags vararg) 0 ∧
      c_openat_bridge st dirfd path flags vararg =
        Route.raw SYS_OPENAT dirfd path flags (open_mode_extraction flags vararg) ∧
      c_stat_bridge st path buf = Route.raw SYS_STAT64 path buf 0 0 ∧
      c_lstat_bridge st path buf = Route.raw SYS_LSTAT64 path buf 0 0 ∧
      c_access_bridge st path mode = Route.raw SYS_ACCESS path mode 0 0 ∧
      c_readlink_bridge st path buf bufsiz =
        Route.raw SYS_READLINK path buf bufsiz 0 ∧
      c_fstat_bridge st fd buf = Route.raw SYS_FSTAT64 fd buf 0 0 ∧
      c_fstatat_bridge st dirfd path buf flags =
        Route.raw SYS_FSTATAT64 dirfd path buf flags ∧
      c_rename_bridge st oldp newp = Route.raw SYS_RENAME oldp newp 0 0 ∧
      c_renameat_bridge st oldfd oldp newfd newp =
        Route.raw SYS_RENAMEAT oldfd oldp newfd newp ∧
      c_creat_bridge st path mode =
        Route.raw SYS_OPEN path (Int.lor (Int.lor O_CREAT O_WRONLY) O_TRUNC) mode 0 ∧
      fcntl_shim_c_impl st fd cmd arg = Route.raw SYS_FCNTL fd cmd arg 0) ∧
    (st = READY →
      c_open_bridge st path flags vararg =
        Route.resolver (ResolverCall.velo_open_impl path flags
          (open_mode_extraction flags vararg)) ∧
      c_openat_bridge st dirfd path flags vararg =
        Route.resolver (ResolverCall.velo_openat_impl dirfd path flags
          (open_mode_extraction flags vararg)) ∧
      c_stat_bridge st path buf =
        Route.resolver (ResolverCall.velo_stat_impl path buf) ∧
      c_lstat_bridge st path buf =
        Route.resolver (ResolverCall.velo_lstat_impl path buf) ∧
      c_access_bridge st path mode =
        Route.resolver (ResolverCall.velo_access_impl path mode) ∧
      c_readlink_bridge st path buf bufsiz =
        Route.resolver (ResolverCall.velo_readlink_impl path buf bufsiz) ∧
      c_fstat_bridge st fd buf =
        Route.resolver (ResolverCall.velo_fstat_impl fd buf) ∧
      c_fstatat_bridge st dirfd path buf flags =
        Route.resolver (ResolverCall.velo_fstatat_impl dirfd path buf flags) ∧
      c_rename_bridge st oldp newp =
        Route.resolver (ResolverCall.velo_rename_impl oldp newp) ∧
      c_renameat_bridge st oldfd oldp newfd newp =
        Route.resolver (ResolverCall.velo_renameat_impl oldfd oldp newfd newp) ∧
      c_creat_bridge st path mode =
        Route.resolver (ResolverCall.creat_shim path mode) ∧
      fcntl_shim_c_impl st fd cmd arg =
        Route.resolver (ResolverCall.velo_fcntl_impl fd cmd arg)) ∧
    (∀ (w : World) (errnoIn n a1 a2 a3 a4 : Int),
      ((w.kernel n a1 a2 a3 a4).carry = true →
        runRoute w errnoIn (Route.raw n a1 a2 a3 a4) =
          (-1, (w.kernel n a1 a2 a3 a4).x0)) ∧
      ((w.kernel n a1 a2 a3 a4).carry = false →
        runRoute w errnoIn (Route.raw n a1 a2 a3 a4) =
          ((w.kernel n a1 a2 a3 a4).x0, errnoIn))) ∧
    (∀ (w : World) (errnoIn : Int) (c : ResolverCall),
      runRoute w errnoIn (Route.resolver c) = w.resolver c errnoIn) := by
  refine ⟨?_, ?_, ?_, ?_⟩
  · intro h
    simp only [READY] at h
    refine ⟨?_, ?_, ?_, ?_, ?_, ?_, ?_, ?_, ?_, ?_, ?_, ?_⟩ <;>
      simp [c_open_bridge, c_openat_bridge, c_stat_bridge, c_lstat_bridge,
        c_access_bridge, c_readlink_bridge, c_fstat_bridge, c_fstatat_bridge,
        c_rename_bridge, c_renameat_bridge, c_creat_bridge, fcntl_shim_c_impl, h]
  · intro h
    simp only [READY] at h
    refine ⟨?_, ?_, ?_, ?_, ?_, ?_, ?_, ?_, ?_, ?_, ?_, ?_⟩ <;>
      simp [c_open_bridge, c_openat_bridge, c_stat_bridge, c_lstat_bridge,
        c_access_bridge, c_readlink_bridge, c_fstat_bridge, c_fstatat_bridge,
        c_rename_bridge, c_renameat_bridge, c_creat_bridge, fcntl_shim_c_impl, h]
  · intro w errnoIn n a1 a2 a3 a4
    constructor <;> intro hc <;> simp [runRoute, raw_syscall_apple, hc]
  · intro w errnoIn c
    rfl

/-- Witness for C1: the stat entry at state `EARLY` takes the raw
`SYS_STAT64` route, and at state `READY` the resolver route. -/
theorem claim1_dispatcher_state_routing_witness :
    c_stat_bridge EARLY 3 4 = Route.raw SYS_STAT64 3 4 0 0 ∧
    c_stat_bridge READY 3 4 =
      Route.resolver (ResolverCall.velo_stat_impl 3 4) :=
  ⟨((claim1_dispatcher_state_routing EARLY 3 512 7 5 4 9 6 11 12 13 14 15 16
      17).1 (by decide)).2.2.1,
   ((claim1_dispatcher_state_routing READY 3 512 7 5 4 9 6 11 12 13 14 15 16
      17).2.1 rfl).2.2.1⟩

end VriftShim

namespace VriftShim

/-- Claim C2: on every open/openat dispatcher invocation, when the flags
carry `O_CREAT` the mode extracted from the variadic list (the value cast
to `mode_t`) is exactly the mode delivered to the routed call, and when
`O_CREAT` is absent the delivered mode is exactly zero whatever variadic
value the caller passed. -/
theorem claim2_open_mode_delivery (st path flags vararg dirfd : Int) :
    (Int.land flags O_CREAT ≠ 0 →
      Route.openDeliveredMode (c_open_bridge st path flags vararg) =
        some (mode_t_cast vararg) ∧
      Route.openDeliveredMode (c_openat_bridge st dirfd path flags vararg) =
        some (mode_t_cast vararg)) ∧
    (Int.land flags O_CREAT = 0 →
      Route.openDeliveredMode (c_open_bridge st path flags vararg) = some 0 ∧
      Route.openDeliveredMode (c_openat_bridge st dirfd path flags vararg) =
        some 0) := by
  constructor <;> intro hf <;> constructor <;>
    by_cases h0 : st = 0 <;>
      simp [c_open_bridge, c_openat_bridge, Route.openDeliveredMode,
        open_mode_extraction, SYS_OPEN, SYS_OPENAT, hf, h0]

/-- Witness for C2: with `O_CREAT` (0x200) set, the caller's variadic value
70000 is delivered exactly as its `mode_t` extraction 4464; with flags 0 the
delivered mode is 0 in spite of the same variadic garbage. -/
theorem claim2_open_mode_delivery_witness :
    Route.openDeliveredMode (c_open_bridge EARLY 3 512 70000) = some 4464 ∧
    Route.openDeliveredMode (c_open_bridge EARLY 3 0 70000) = some 0 :=
  ⟨(((claim2_open_mode_delivery EARLY 3 512 70000 5).1 (by decide)).1).trans
      (by decide),
   ((claim2_open_mode_delivery EARLY 3 0 70000 5).2 (by decide)).1⟩

/-- Claim C3: the raw syscall invoker normalizes the kernel response under
both platform conventions: on Apple arm64 a set carry flag stores the
result-register value in the error cell and yields -1, a clear carry yields
the result-register value with the error cell untouched; on Linux a return
value in [-4095, -1] stores its negation in the error cell and yields -1,
and any other value is returned as-is. -/
theorem claim3_raw_syscall_normalization :
    (∀ (k : KernelReply) (e : Int),
      (k.carry = true → raw_syscall_apple k e = (-1, k.x0)) ∧
      (k.carry = false → raw_syscall_apple k e = (k.x0, e))) ∧
    (∀ r e : Int,
      (-4095 ≤ r ∧ r ≤ -1 → raw_syscall_linux r e = (-1, -r)) ∧
      (¬(-4095 ≤ r ∧ r ≤ -1) → raw_syscall_linux r e = (r, e))) := by
  constructor
  · intro k e
    constructor <;> intro hc <;> simp [raw_syscall_apple, hc]
  · intro r e
    constructor <;> intro hr
    · have hc : r < 0 ∧ -4095 ≤ r := by omega
      simp [raw_syscall_linux, hc]
    · have hc : ¬(r < 0 ∧ -4095 ≤ r) := by omega
      simp [raw_syscall_linux, hc]

/-- Witness for C3: a failed Apple trap with error value 22 in x0, a
successful Apple trap, a Linux kernel return of -2, and a Linux kernel
return of 3, each normalized as the claim states. -/
theorem claim3_raw_syscall_normalization_witness :
    raw_syscall_apple (KernelReply.mk true 22) 7 = (-1, 22) ∧
    raw_syscall_apple (KernelReply.mk false 5) 7 = (5, 7) ∧
    raw_syscall_linux (-2) 7 = (-1, 2) ∧
    raw_syscall_linux 3 7 = (3, 7) :=
  ⟨(claim3_raw_syscall_normalization.1 (KernelReply.mk true 22) 7).1 rfl,
   (claim3_raw_syscall_normalization.1 (KernelReply.mk false 5) 7).2 rfl,
   (((claim3_raw_syscall_normalization.2 (-2) 7).1 (by decide))).trans
     (by decide),
   (claim3_raw_syscall_normalization.2 3 7).2 (by decide)⟩

/-- Claim C4: the bootstrap cell starts at `EARLY`; its only writes are the
first hook's advance to `RUNTIME_SAFE` and the second hook's advance to
`READY`, each happening exactly once; along the whole load-time trace the
readiness of the cell is monotonically non-decreasing; and from any point
where the cell reads `READY`, every later point still reads `READY`. -/
theorem claim4_bootstrap_monotonicity :
    statesAlong.head? = some initState ∧
    initState.cell = EARLY ∧
    vfs_init_constructor.filterMap writeValue = [RUNTIME_SAFE] ∧
    vfs_late_init_constructor.filterMap writeValue = [READY] ∧
    bootActions.filterMap writeValue = [RUNTIME_SAFE, READY] ∧
    (∀ i j : Fin statesAlong.length, i ≤ j →
      readiness (statesAlong.get i).cell ≤ readiness (statesAlong.get j).cell) ∧
    (∀ i j : Fin statesAlong.length, i ≤ j →
      (statesAlong.get i).cell = READY → (statesAlong.get j).cell = READY) :=
  ⟨rfl, rfl, rfl, rfl, rfl, by decide, by decide⟩

/-- Witness for C4: readiness is non-decreasing from the initial state to
the final one, and the final (post-second-hook) state reads `READY`. -/
theorem claim4_bootstrap_monotonicity_witness :
    readiness (statesAlong.get ⟨0, by decide⟩).cell ≤
      readiness (statesAlong.get ⟨3, by decide⟩).cell ∧
    (statesAlong.get ⟨3, by decide⟩).cell = READY :=
  ⟨claim4_bootstrap_monotonicity.2.2.2.2.2.1 ⟨0, by decide⟩ ⟨3, by decide⟩
      (by decide),
   claim4_bootstrap_monotonicity.2.2.2.2.2.2 ⟨3, by decide⟩ ⟨3, by decide⟩
      (by decide) (by decide)⟩

end VriftShim

namespace VriftShim

/-- Counterexample to C5 as stated: the extended-attribute entry
`c_getattrlist_bridge`, invoked with the bootstrap state at `EARLY`
(below `READY`), does not route to the raw syscall invoker, and its route
is identical to the one taken at `READY` — the entry never consults the
state at all. -/
theorem claim5_counterexample :
    Route.isRawCall (c_getattrlist_bridge EARLY 1 2 3 4 5) = false ∧
    c_getattrlist_bridge EARLY 1 2 3 4 5 =
      c_getattrlist_bridge READY 1 2 3 4 5 := by decide

/-- Claim C5 (amended): every dispatcher entry except the two
extended-attribute ones consults the bootstrap state on each invocation,
routing to the raw syscall invoker exactly when the state is below `READY`
and to the resolver entry point at `READY`; the extended-attribute entries
(`c_getattrlist_bridge`, `c_setattrlist_bridge`) forward unconditionally to
their resolver shim entry points regardless of the state. -/
theorem claim5_amended_state_consultation
    (st path flags vararg dirfd buf bufsiz fd oldp newp oldfd newfd mode cmd
     arg attrlist attrbuf attrbufsize options : Int) :
    (Route.isRawCall (c_open_bridge st path flags vararg) = true ↔ st ≠ READY) ∧
    (Route.isRawCall (c_openat_bridge st dirfd path flags vararg) = true ↔
      st ≠ READY) ∧
    (Route.isRawCall (c_stat_bridge st path buf) = true ↔ st ≠ READY) ∧
    (Route.isRawCall (c_lstat_bridge st path buf) = true ↔ st ≠ READY) ∧
    (Route.isRawCall (c_access_bridge st path mode) = true ↔ st ≠ READY) ∧
    (Route.isRawCall (c_readlink_bridge st path buf bufsiz) = true ↔
      st ≠ READY) ∧
    (Route.isRawCall (c_fstat_bridge st fd buf) = true ↔ st ≠ READY) ∧
    (Route.isRawCall (c_fstatat_bridge st dirfd path buf flags) = true ↔
      st ≠ READY) ∧
    (Route.isRawCall (c_rename_bridge st oldp newp) = true ↔ st ≠ READY) ∧
    (Route.isRawCall (c_renameat_bridge st oldfd oldp newfd newp) = true ↔
      st ≠ READY) ∧
    (Route.isRawCall (c_creat_bridge st path mode) = true ↔ st ≠ READY) ∧
    (Route.isRawCall (fcntl_shim_c_impl st fd cmd arg) = true ↔ st ≠ READY) ∧
    c_getattrlist_bridge st path attrlist attrbuf attrbufsize options =
      Route.resolver
        (ResolverCall.getattrlist_shim path attrlist attrbuf attrbufsize
          options) ∧
    c_setattrlist_bridge st path attrlist attrbuf attrbufsize options =
      Route.resolver
        (ResolverCall.setattrlist_shim path attrlist attrbuf attrbufsize
          options) := by
  by_cases h0 : st = 0 <;>
    simp [c_open_bridge, c_openat_bridge, c_stat_bridge, c_lstat_bridge,
      c_access_bridge, c_readlink_bridge, c_fstat_bridge, c_fstatat_bridge,
      c_rename_bridge, c_renameat_bridge, c_creat_bridge, fcntl_shim_c_impl,
      c_getattrlist_bridge, c_setattrlist_bridge, Route.isRawCall, READY, h0]

/-- Witness for C5 (amended): the open entry at `EARLY` takes a raw route,
while the getattrlist entry at `EARLY` goes to its resolver shim. -/
theorem claim5_amended_state_consultation_witness :
    Route.isRawCall (c_open_bridge EARLY 3 512 7) = true ∧
    c_getattrlist_bridge EARLY 1 2 3 4 5 =
      Route.resolver (ResolverCall.getattrlist_shim 1 2 3 4 5) :=
  ⟨(claim5_amended_state_consultation EARLY 3 512 7 5 4 9 6 11 12 13 14 15 16
      17 1 2 3 4).1.mpr (by decide),
   (claim5_amended_state_consultation EARLY 1 512 7 5 4 9 6 11 12 13 14 15 16
      17 2 3 4 5).2.2.2.2.2.2.2.2.2.2.2.2.1⟩

/-- Claim C6: the first bootstrap hook ignores SIGPIPE before it advances
the cell to `RUNTIME_SAFE`, so every state along the load-time trace whose
cell readiness is at least `RUNTIME_SAFE` already has the SIGPIPE-ignore
disposition installed. -/
theorem claim6_sigpipe_before_runtime_safe :
    vfs_init_constructor =
      [BootAction.ignoreSigpipe, BootAction.writeCell RUNTIME_SAFE] ∧
    ∀ s ∈ statesAlong, readiness RUNTIME_SAFE ≤ readiness s.cell →
      s.sigpipeIgnored = true :=
  ⟨rfl, by decide⟩

/-- Witness for C6: the state right after the first hook has cell
`RUNTIME_SAFE` and the SIGPIPE disposition installed. -/
theorem claim6_sigpipe_before_runtime_safe_witness :
    (ProcState.mk true RUNTIME_SAFE).sigpipeIgnored = true :=
  claim6_sigpipe_before_runtime_safe.2 (ProcState.mk true RUNTIME_SAFE)
    (by decide) (by decide)

/-- Claim C7: for every error code, `set_vfs_errno` followed by
`get_vfs_errno` on the same thread's cell returns exactly that code — the
bridge only transports the value, it never translates it. -/
theorem claim7_errno_roundtrip (c : ErrnoCell) (code : Int) :
    get_vfs_errno (set_vfs_errno c code) = code := rfl

/-- Claim C8: the fcntl shim entry takes its trailing argument as a fixed,
fully-typed parameter and forwards exactly that value unchanged: as the
third raw syscall argument (`SYS_FCNTL`) below `READY`, and as the third
resolver argument at `READY`. -/
theorem claim8_fcntl_fixed_arg_forwarding (st fd cmd arg : Int) :
    (st ≠ READY →
      fcntl_shim_c_impl st fd cmd arg = Route.raw SYS_FCNTL fd cmd arg 0) ∧
    (st = READY →
      fcntl_shim_c_impl st fd cmd arg =
        Route.resolver (ResolverCall.velo_fcntl_impl fd cmd arg)) := by
  constructor <;> intro h <;> simp only [READY] at h <;>
    simp [fcntl_shim_c_impl, h]

/-- Witness for C8: the duplicate-with-close-on-exec command
(`F_DUPFD_CLOEXEC` = 67) with trailing argument 100 is forwarded intact in
both states. -/
theorem claim8_fcntl_fixed_arg_forwarding_witness :
    fcntl_shim_c_impl EARLY 3 67 100 = Route.raw SYS_FCNTL 3 67 100 0 ∧
    fcntl_shim_c_impl READY 3 67 100 =
      Route.resolver (ResolverCall.velo_fcntl_impl 3 67 100) :=
  ⟨(claim8_fcntl_fixed_arg_forwarding EARLY 3 67 100).1 (by decide),
   (claim8_fcntl_fixed_arg_forwarding READY 3 67 100).2 rfl⟩

/-- Claim C9: below `READY`, the creat entry is extensionally the open
entry at flags `O_CREAT | O_WRONLY | O_TRUNC` with the same `mode_t` mode:
both reduce to the same raw `SYS_OPEN` invocation with identical
arguments. -/
theorem claim9_creat_open_equivalence (st path mode : Int)
    (hlo : 0 ≤ mode) (hhi : mode < 65536) (hbelow : st ≠ READY) :
    c_creat_bridge st path mode =
      c_open_bridge st path (Int.lor (Int.lor O_CREAT O_WRONLY) O_TRUNC)
        mode ∧
    c_creat_bridge st path mode =
      Route.raw SYS_OPEN path (Int.lor (Int.lor O_CREAT O_WRONLY) O_TRUNC)
        mode 0 := by
  simp only [READY] at hbelow
  have hmode :
      open_mode_extraction (Int.lor (Int.lor O_CREAT O_WRONLY) O_TRUNC) mode =
        mode := by
    have hflags :
        Int.land (Int.lor (Int.lor O_CREAT O_WRONLY) O_TRUNC) O_CREAT ≠ 0 := by
      decide
    simp only [open_mode_extraction, hflags, if_pos, mode_t_cast]
    omega
  constructor
  · simp [c_creat_bridge, c_open_bridge, hbelow, hmode]
  · simp [c_creat_bridge, hbelow]

/-- Witness for C9: at state `EARLY` with mode 0644 (420), creat and
flagged open take the same raw route. -/
theorem claim9_creat_open_equivalence_witness :
    c_creat_bridge EARLY 3 420 =
      c_open_bridge EARLY 3 (Int.lor (Int.lor O_CREAT O_WRONLY) O_TRUNC)
        420 :=
  (claim9_creat_open_equivalence EARLY 3 420 (by decide) (by decide)
    (by decide)).1

/-- Claim C10: whenever the kernel reports success (carry clear on Apple
arm64, return value outside [-4095, -1] on Linux), the raw syscall invoker
leaves the errno cell completely unchanged. -/
theorem claim10_success_preserves_errno :
    (∀ (k : KernelReply) (e : Int),
      k.carry = false → (raw_syscall_apple k e).2 = e) ∧
    (∀ r e : Int, ¬(-4095 ≤ r ∧ r ≤ -1) → (raw_syscall_linux r e).2 = e) := by
  constructor
  · intro k e hc
    simp [raw_syscall_apple, hc]
  · intro r e hr
    have hc : ¬(r < 0 ∧ -4095 ≤ r) := by omega
    simp [raw_syscall_linux, hc]

/-- Witness for C10: a successful Apple trap and a successful Linux return
both leave a previously stored errno value 7 in place. -/
theorem claim10_success_preserves_errno_witness :
    (raw_syscall_apple (KernelReply.mk false 5) 7).2 = 7 ∧
    (raw_syscall_linux 3 7).2 = 7 :=
  ⟨claim10_success_preserves_errno.1 (KernelReply.mk false 5) 7 rfl,
   claim10_success_preserves_errno.2 3 7 (by decide)⟩

end VriftShim
